import Mathlib

/-!
Shallow embedding of `src/elite_programmer_ai.py` (class `MobiusAI`), the
self-maintaining script controller: update check with caching, backup before
overwrite, advisory-driven rewrite, subprocess execution, one repair attempt,
and rollback to the newest backup.

Modelling conventions:
* Filesystem state is explicit: the managed script file is `St.script`
  (`none` = the file does not exist), the backup directory is the association
  list `St.backups` (filename ↦ content), the cache file is `St.cache`.
* External effects are oracles in `Env`: `Env.adv n` is the outcome of the
  n-th advisory (chat-completion) call, `Env.exec n` the outcome of the n-th
  subprocess run, `Env.ts n` the timestamp string produced by the n-th
  `time.strftime` call in `backup_code`.
* The fields `advisoryCalls`, `execCalls`, `restoreCalls`, `updateCalls`,
  `backupCalls` of `St` are ghost instrumentation counters (they index the
  oracles and count operation attempts); they correspond to no Python state.
* Python string operations (`in`, `split`, `strip`, `sorted`) are modelled
  character-exactly on `List Char` (code-point comparisons, leftmost
  non-overlapping split, ASCII whitespace stripping).
* Python exceptions that the source catches are modelled by the value the
  handler produces; the source's `try`/`except` blocks absorb every exception
  raised inside them, so the modelled functions are total.
-/

namespace MobiusAI

/-! ### Python string primitives -/

/-- Finds the leftmost occurrence of `sep` in `s`, returning the part before
it and the part after it (Python's leftmost non-overlapping match, as used by
`str.split` and the `in` operator). -/
def firstSplit (sep : List Char) : List Char → Option (List Char × List Char)
  | [] => if sep.isPrefixOf ([] : List Char) then some ([], []) else none
  | c :: r =>
    if sep.isPrefixOf (c :: r) then some ([], (c :: r).drop sep.length)
    else (firstSplit sep r).map (fun p => (c :: p.1, p.2))

/-- Python's `pat in s` substring test. -/
def pyIn (pat s : String) : Bool := (firstSplit pat.data s.data).isSome

/-- Worker for `pySplit`; the fuel `s.length + 1` always suffices because each
removed separator is nonempty in every use in this file. -/
def pySplitAux (sep : List Char) : Nat → List Char → List (List Char)
  | 0, s => [s]
  | n + 1, s =>
    match firstSplit sep s with
    | none => [s]
    | some (pre, post) => pre :: pySplitAux sep n post

/-- Python's `s.split(sep)` for a nonempty separator. -/
def pySplit (sep s : String) : List String :=
  (pySplitAux sep.data (s.data.length + 1) s.data).map String.mk

/-- The characters removed by Python's `str.strip()` (ASCII whitespace:
space, tab, newline, carriage return, vertical tab, form feed). -/
def isPySpace (c : Char) : Bool :=
  c = ' ' || c = '\t' || c = '\n' || c = '\r' || c = Char.ofNat 11 || c = Char.ofNat 12

/-- Python's `s.strip()`. -/
def pyStrip (s : String) : String :=
  String.mk (((s.data.dropWhile isPySpace).reverse.dropWhile isPySpace).reverse)

/-- Lexicographic order on character lists by code point, Python's string
comparison as used by `sorted`. -/
def listLt : List Char → List Char → Bool
  | [], [] => false
  | [], _ :: _ => true
  | _ :: _, [] => false
  | a :: as, b :: bs =>
    if a.toNat < b.toNat then true
    else if b.toNat < a.toNat then false
    else listLt as bs

/-- Python's `a < b` on strings. -/
def pyLt (a b : String) : Bool := listLt a.data b.data

/-! ### Data model -/

/-- Outcome of one advisory (chat-completion) call, as seen at the boundary in
`check_for_necessary_update`: a response text, a timeout, or any other
exception raised by the client call. -/
inductive AdvResp where
  | ok (text : String)
  | timeout
  | err
deriving DecidableEq

/-- Outcome of one `subprocess.run` call in `execute_code_directly`: the
process exited with a code, the 10-second bound expired
(`subprocess.TimeoutExpired`), or launching raised some other exception. -/
inductive ExecOut where
  | exited (code : Int)
  | timedOut
  | raised
deriving DecidableEq

/-- Observable filesystem events emitted by one `apply_update` attempt:
creation of a backup file (name and copied content), the overwrite of the
script file (new content), and the write of the cache record. -/
inductive Ev where
  | backup (name content : String)
  | write (content : String)
  | cacheWrite
deriving DecidableEq

/-- External environment of one `MobiusAI` instance: the project name and the
oracles for advisory responses, subprocess outcomes and backup timestamps. -/
structure Env where
  project : String
  adv : Nat → AdvResp
  exec : Nat → ExecOut
  ts : Nat → String

/-- Filesystem state plus ghost call counters. `script` is the content of
`<output_dir>/<project>.py` (`none` if absent), `backups` the contents of the
backup directory, `cache` the content of `<project>_update_cache.txt`. -/
structure St where
  script : Option String
  backups : List (String × String)
  cache : Option String
  advisoryCalls : Nat
  execCalls : Nat
  restoreCalls : Nat
  updateCalls : Nat
  backupCalls : Nat
deriving DecidableEq

/-- The sentinel phrase looked for in the advisory response (line 63). -/
def noUpdateMarker : String := "NO UPDATE NEEDED"

/-- The token written to and compared against the cache file (lines 37, 66). -/
def cacheToken : String := "NO_UPDATE_NEEDED"

/-- The bound (seconds) passed to the advisory call (line 59). -/
def advisoryTimeoutSeconds : Nat := 15

/-- The bound (seconds) passed to `subprocess.run` (line 99). -/
def execTimeoutSeconds : Nat := 10

/-- Lines 34-39: the cache short-circuit fires when the cache file exists and
its stripped content equals `NO_UPDATE_NEEDED`; any other content falls
through to a fresh check. -/
def cacheHit (st : St) : Bool :=
  match st.cache with
  | some c => pyStrip c == cacheToken
  | none => false

/-- Line 28: the backup filename `<project>_backup_<timestamp>.py`. -/
def backupName (env : Env) (n : Nat) : String :=
  env.project ++ "_backup_" ++ env.ts n ++ ".py"

/-- `shutil.copy` into the backup directory: a file of the same name is
overwritten, otherwise a new directory entry appears. -/
def putBackup : List (String × String) → String → String → List (String × String)
  | [], nm, c => [(nm, c)]
  | p :: r, nm, c => if p.1 = nm then (nm, c) :: r else p :: putBackup r nm c

/-- Lines 25-30, `backup_code`: copy the current script content (the caller
passes it as `content`) to a fresh timestamped backup file. -/
def backup_code (env : Env) (st : St) (content : String) : St × List Ev :=
  let nm := backupName env st.backupCalls
  ({ st with
      backups := putBackup st.backups nm content,
      backupCalls := st.backupCalls + 1 },
   [Ev.backup nm content])

/-- Lines 32-76, `check_for_necessary_update`. Returns the Python return
value (`none` = Python `None`, `some s` = the stripped suggestion text), the
new state, and the emitted events. When the script file is absent, the
`open(file_path)` on line 42 raises `FileNotFoundError`, which the blanket
`except Exception` on line 74 absorbs into `None` before any advisory call is
made. A `requests.exceptions.Timeout` (line 71) or any other exception from
the advisory call (line 74) likewise yields `None`. -/
def check_for_necessary_update (env : Env) (st : St) : Option String × St × List Ev :=
  if cacheHit st then (none, st, [])
  else
    match st.script with
    | none => (none, st, [])
    | some _existing =>
      match env.adv st.advisoryCalls with
      | AdvResp.timeout => (none, { st with advisoryCalls := st.advisoryCalls + 1 }, [])
      | AdvResp.err => (none, { st with advisoryCalls := st.advisoryCalls + 1 }, [])
      | AdvResp.ok text =>
        if pyIn noUpdateMarker (pyStrip text) then
          (none,
           { st with advisoryCalls := st.advisoryCalls + 1, cache := some cacheToken },
           [Ev.cacheWrite])
        else
          (some (pyStrip text), { st with advisoryCalls := st.advisoryCalls + 1 }, [])

/-- Python truthiness of an `Optional[str]`: `None` and the empty string are
falsy (line 81, `if not update_suggestion`). -/
def pyTruthy : Option String → Bool
  | none => false
  | some s => !(s == "")

/-- Lines 86-88: if the suggestion contains a ` ```python ` token, take
`suggestion.split("```python")[1].split("```")[0].strip()`; otherwise the
suggestion is used unchanged. -/
def extract_fenced (s : String) : String :=
  if pyIn "```python" s then
    pyStrip (((pySplit "```" ((pySplit "```python" s).getD 1 ""))).getD 0 "")
  else s

/-- Lines 78-93, `apply_update`: run the check; when its result is truthy,
back up the current script file and overwrite it with the extracted code.
The `st1.script = none` branch is unreachable (the check only returns a
suggestion after successfully opening the script file and it never modifies
the file); in Python that path would raise inside `shutil.copy`. -/
def apply_update (env : Env) (st : St) : St × List Ev :=
  let st0 := { st with updateCalls := st.updateCalls + 1 }
  let r := check_for_necessary_update env st0
  if pyTruthy r.1 then
    match r.2.1.script with
    | some prior =>
      let b := backup_code env r.2.1 prior
      let code := extract_fenced (r.1.getD "")
      ({ b.1 with script := some code }, r.2.2 ++ b.2 ++ [Ev.write code])
    | none => (r.2.1, r.2.2)
  else (r.2.1, r.2.2)

/-- Lines 95-111, `execute_code_directly`: run the script as a subprocess
with a 10-second bound; `True` exactly on exit status zero; a timeout or any
launch exception is caught and yields `False`. -/
def execute_code_directly (env : Env) (st : St) : Bool × St :=
  let r := env.exec st.execCalls
  let st1 := { st with execCalls := st.execCalls + 1 }
  match r with
  | ExecOut.exited c => (c == 0, st1)
  | ExecOut.timedOut => (false, st1)
  | ExecOut.raised => (false, st1)

/-- Line 115: `sorted(os.listdir(backup_dir), reverse=True)[0]`, the directory
entry with the lexicographically greatest filename (no project filtering). -/
def maxBackup : List (String × String) → Option (String × String)
  | [] => none
  | p :: r =>
    match maxBackup r with
    | none => some p
    | some q => some (if pyLt q.1 p.1 then p else q)

/-- Lines 113-122, `rollback`: copy the backup with the greatest filename over
the script file; do nothing when the backup directory is empty. The returned
`Bool` is the truthiness of the Python return value: both the bare `return`
on line 118 and falling off the end return `None`, which is falsy. -/
def rollback (st : St) : Bool × St :=
  let st1 := { st with restoreCalls := st.restoreCalls + 1 }
  match maxBackup st1.backups with
  | none => (false, st1)
  | some p => (false, { st1 with script := some p.2 })

/-- Lines 124-149, `build_and_self_improve`: generate when the script file is
missing, update, execute, one repair attempt (update + execute), and on a
second failure roll back and return `False`. -/
def build_and_self_improve (env : Env) (st : St) : Bool × St :=
  let stA := if st.script.isNone then (apply_update env st).1 else st
  let stB := (apply_update env stA).1
  let r1 := execute_code_directly env stB
  if r1.1 then (true, r1.2)
  else
    let stD := (apply_update env r1.2).1
    let r2 := execute_code_directly env stD
    if r2.1 then (true, r2.2)
    else (false, (rollback r2.2).2)

/-- A subprocess outcome that `execute_code_directly` reports as failure:
nonzero exit, timeout, or a launch exception. -/
def isFailOutcome : ExecOut → Bool
  | ExecOut.exited c => !(c == 0)
  | ExecOut.timedOut => true
  | ExecOut.raised => true

/-- An event that records a backup-file creation. -/
def isBackupEv : Ev → Bool
  | Ev.backup _ _ => true
  | _ => false

/-- An event that records an overwrite of the script file. -/
def isWriteEv : Ev → Bool
  | Ev.write _ => true
  | _ => false

/-! ### Concrete inputs for witnesses and counterexamples -/

/-- Fresh state: no script file, empty backup directory, no cache record. -/
def st0 : St :=
  { script := none, backups := [], cache := none, advisoryCalls := 0,
    execCalls := 0, restoreCalls := 0, updateCalls := 0, backupCalls := 0 }

/-- State whose script file exists with content "old". -/
def stOld : St := { st0 with script := some "old" }

/-- State with the no-update verdict cached. -/
def stCached : St := { stOld with cache := some "NO_UPDATE_NEEDED" }

/-- A shared backup directory holding one backup of project `a` (its newest
and only one, content "A1") and one backup of project `z` (content "Z1"). -/
def stTwoProjects : St :=
  { st0 with
      script := some "orig",
      backups := [("a_backup_20240102_000000.py", "A1"),
                  ("z_backup_20230101_000000.py", "Z1")] }

/-- Environment whose advisory always raises and whose executions always
exit with status 1. -/
def envFail : Env :=
  { project := "p", adv := fun _ => AdvResp.err,
    exec := fun _ => ExecOut.exited 1, ts := fun _ => "20240101_000000" }

/-- Environment whose advisory returns a python-fenced suggestion and whose
executions exit with status 0. -/
def envSuggest : Env :=
  { project := "p", adv := fun _ => AdvResp.ok "```python\nprint(1)\n```",
    exec := fun _ => ExecOut.exited 0, ts := fun _ => "20240101_000000" }

/-- Environment whose advisory returns plain unfenced text with a trailing
newline. -/
def envPlain : Env :=
  { project := "p", adv := fun _ => AdvResp.ok "print(1)\n",
    exec := fun _ => ExecOut.exited 0, ts := fun _ => "20240101_000000" }

/-- Environment whose advisory response contains both the no-update marker
and a python-fenced code block. -/
def envMarkerFence : Env :=
  { project := "p",
    adv := fun _ => AdvResp.ok "NO UPDATE NEEDED\n```python\nprint(2)\n```",
    exec := fun _ => ExecOut.exited 0, ts := fun _ => "20240101_000000" }

/-- Environment whose advisory call always times out. -/
def envTimeout : Env :=
  { project := "p", adv := fun _ => AdvResp.timeout,
    exec := fun _ => ExecOut.exited 0, ts := fun _ => "20240101_000000" }

/-! ### Helper lemmas -/

/-- The cache short-circuit only reads the cache field. -/
@[simp] lemma cacheHit_updateCalls (st : St) (v : Nat) :
    cacheHit { st with updateCalls := v } = cacheHit st := rfl

/-- The update check never touches the script file. -/
@[simp] lemma check_script (env : Env) (st : St) :
    ((check_for_necessary_update env st).2.1).script = st.script := by
  unfold check_for_necessary_update
  (repeat' split) <;> rfl

/-- The update check never touches the backup directory. -/
@[simp] lemma check_backups (env : Env) (st : St) :
    ((check_for_necessary_update env st).2.1).backups = st.backups := by
  unfold check_for_necessary_update
  (repeat' split) <;> rfl

/-- The update check performs no execution. -/
@[simp] lemma check_execCalls (env : Env) (st : St) :
    ((check_for_necessary_update env st).2.1).execCalls = st.execCalls := by
  unfold check_for_necessary_update
  (repeat' split) <;> rfl

/-- The update check performs no restore. -/
@[simp] lemma check_restoreCalls (env : Env) (st : St) :
    ((check_for_necessary_update env st).2.1).restoreCalls = st.restoreCalls := by
  unfold check_for_necessary_update
  (repeat' split) <;> rfl

/-- The update check performs no nested update attempt. -/
@[simp] lemma check_updateCalls (env : Env) (st : St) :
    ((check_for_necessary_update env st).2.1).updateCalls = st.updateCalls := by
  unfold check_for_necessary_update
  (repeat' split) <;> rfl

/-- The update check creates no backup. -/
@[simp] lemma check_backupCalls (env : Env) (st : St) :
    ((check_for_necessary_update env st).2.1).backupCalls = st.backupCalls := by
  unfold check_for_necessary_update
  (repeat' split) <;> rfl

/-- With a cached no-update verdict the check returns immediately,
unchanged, with no advisory call and no event. -/
lemma check_of_cacheHit (env : Env) {st : St} (h : cacheHit st = true) :
    check_for_necessary_update env st = (none, st, []) := by
  unfold check_for_necessary_update
  rw [if_pos h]

/-- Shape of one check: either no suggestion and no event, or no suggestion
with exactly the cache-write event, or a suggestion (stripped advisory text)
with no event; in every case the cache either persists or gains the token,
and the advisory counter grows by at most one. -/
lemma check_cases (env : Env) (st : St) :
    ((check_for_necessary_update env st).1 = none ∧
      (check_for_necessary_update env st).2.2 = []) ∨
    ((check_for_necessary_update env st).1 = none ∧
      (check_for_necessary_update env st).2.2 = [Ev.cacheWrite]) ∨
    (∃ s, (check_for_necessary_update env st).1 = some s ∧
      (check_for_necessary_update env st).2.2 = []) := by
  unfold check_for_necessary_update
  (repeat' split) <;> simp

/-- A set cache survives the check (it is only re-affirmed, never cleared). -/
lemma check_cache_mono (env : Env) {st : St} (h : cacheHit st = true) :
    cacheHit ((check_for_necessary_update env st).2.1) = true := by
  rw [check_of_cacheHit env h]
  exact h

/-- An update attempt performs no execution. -/
@[simp] lemma apply_update_execCalls (env : Env) (st : St) :
    ((apply_update env st).1).execCalls = st.execCalls := by
  simp only [apply_update, backup_code]
  (repeat' split) <;> simp

/-- An update attempt performs no restore. -/
@[simp] lemma apply_update_restoreCalls (env : Env) (st : St) :
    ((apply_update env st).1).restoreCalls = st.restoreCalls := by
  simp only [apply_update, backup_code]
  (repeat' split) <;> simp

/-- An update attempt bumps the attempt counter exactly once. -/
@[simp] lemma apply_update_updateCalls (env : Env) (st : St) :
    ((apply_update env st).1).updateCalls = st.updateCalls + 1 := by
  simp only [apply_update, backup_code]
  (repeat' split) <;> simp

/-- With a cached no-update verdict, an update attempt is a pure skip:
state unchanged (up to the ghost attempt counter), no advisory call, no
backup, no write, no cache touch, no event. -/
lemma apply_update_cached (env : Env) {st : St} (h : cacheHit st = true) :
    apply_update env st = ({ st with updateCalls := st.updateCalls + 1 }, []) := by
  have h0 : cacheHit { st with updateCalls := st.updateCalls + 1 } = true := h
  simp only [apply_update]
  rw [check_of_cacheHit env h0]
  rfl

/-- A set cache survives an update attempt. -/
lemma apply_update_cache_mono (env : Env) {st : St} (h : cacheHit st = true) :
    cacheHit ((apply_update env st).1) = true := by
  rw [apply_update_cached env h]
  exact h

/-- Execution consumes exactly one executor outcome, succeeds exactly when it
is a zero exit, and changes nothing except the execution counter. -/
lemma execute_spec (env : Env) (st : St) :
    execute_code_directly env st =
      (!(isFailOutcome (env.exec st.execCalls)),
       { st with execCalls := st.execCalls + 1 }) := by
  unfold execute_code_directly isFailOutcome
  cases env.exec st.execCalls <;> simp

/-- Rollback consumes no oracle, returns a falsy value, bumps the restore
counter once and touches nothing but the script file. -/
lemma rollback_spec (st : St) :
    (rollback st).1 = false ∧
    ((rollback st).2).execCalls = st.execCalls ∧
    ((rollback st).2).updateCalls = st.updateCalls ∧
    ((rollback st).2).restoreCalls = st.restoreCalls + 1 ∧
    ((rollback st).2).cache = st.cache ∧
    ((rollback st).2).backups = st.backups := by
  simp only [rollback]
  (repeat' split) <;> simp

/-- Rollback preserves the execution counter. -/
@[simp] lemma rollback_snd_execCalls (st : St) :
    ((rollback st).2).execCalls = st.execCalls := (rollback_spec st).2.1

/-- Rollback preserves the update-attempt counter. -/
@[simp] lemma rollback_snd_updateCalls (st : St) :
    ((rollback st).2).updateCalls = st.updateCalls := (rollback_spec st).2.2.1

/-- Rollback bumps the restore counter exactly once. -/
@[simp] lemma rollback_snd_restoreCalls (st : St) :
    ((rollback st).2).restoreCalls = st.restoreCalls + 1 :=
  (rollback_spec st).2.2.2.1

/-- Code-point comparison is irreflexive. -/
lemma listLt_irrefl (l : List Char) : listLt l l = false := by
  induction l with
  | nil => rfl
  | cons a as ih => simp [listLt, ih]

/-- Code-point comparison is asymmetric. -/
lemma listLt_asymm : ∀ {a b : List Char}, listLt a b = true → listLt b a = false := by
  intro a
  induction a with
  | nil =>
    intro b h
    cases b with
    | nil => simp [listLt] at h
    | cons y ys => simp [listLt]
  | cons x xs ih =>
    intro b h
    cases b with
    | nil => simp [listLt] at h
    | cons y ys =>
      simp only [listLt] at h ⊢
      by_cases h1 : x.toNat < y.toNat
      · rw [if_neg (by omega), if_pos h1]
      · by_cases h2 : y.toNat < x.toNat
        · rw [if_neg h1, if_pos h2] at h
          exact absurd h (by simp)
        · rw [if_neg h2, if_neg h1]
          rw [if_neg h1, if_neg h2] at h
          exact ih h

/-- Python string comparison is irreflexive. -/
lemma pyLt_irrefl (s : String) : pyLt s s = false := listLt_irrefl _

/-- Python string comparison is asymmetric. -/
lemma pyLt_asymm {a b : String} (h : pyLt a b = true) : pyLt b a = false :=
  listLt_asymm h

/-- The selected backup is a directory entry. -/
lemma maxBackup_mem : ∀ {l : List (String × String)} {p : String × String},
    maxBackup l = some p → p ∈ l := by
  intro l
  induction l with
  | nil => intro p h; simp [maxBackup] at h
  | cons q r ih =>
    intro p h
    unfold maxBackup at h
    cases hm : maxBackup r with
    | none =>
      rw [hm] at h
      simp at h
      simp [h]
    | some m =>
      rw [hm] at h
      simp at h
      split at h
      · simp [h]
      · right
        exact h ▸ ih hm

/-- When one entry's name strictly dominates every other entry's name, the
maximum-name selection returns exactly that entry. -/
lemma maxBackup_spec : ∀ {l : List (String × String)} {n2 c2 : String},
    (n2, c2) ∈ l → (∀ p ∈ l, p ≠ (n2, c2) → pyLt p.1 n2 = true) →
    maxBackup l = some (n2, c2) := by
  intro l
  induction l with
  | nil => intro n2 c2 hmem _; simp at hmem
  | cons q r ih =>
    intro n2 c2 hmem hmax
    by_cases hr : (n2, c2) ∈ r
    · have hmr : maxBackup r = some (n2, c2) :=
        ih hr (fun p hp hne => hmax p (List.mem_cons_of_mem _ hp) hne)
      unfold maxBackup
      rw [hmr]
      by_cases hq : q = (n2, c2)
      · subst hq
        simp [pyLt_irrefl]
      · have hlt : pyLt q.1 n2 = true := hmax q (List.mem_cons_self _ _) hq
        have : pyLt n2 q.1 = false := pyLt_asymm hlt
        simp [this]
    · have hq : q = (n2, c2) := by
        rcases List.mem_cons.mp hmem with h | h
        · exact h.symm
        · exact absurd h hr
      subst hq
      unfold maxBackup
      cases hm : maxBackup r with
      | none => rfl
      | some m =>
        have hmmem : m ∈ r := maxBackup_mem hm
        have hmne : m ≠ (n2, c2) := fun h => hr (h ▸ hmmem)
        have hlt : pyLt m.1 n2 = true :=
          hmax m (List.mem_cons_of_mem _ hmmem) hmne
        simp [hlt]

/-- A missing script file aborts the check before any advisory call:
`open` raises `FileNotFoundError`, absorbed into `None`. -/
lemma check_of_missing (env : Env) (st : St) (hs : st.script = none) :
    check_for_necessary_update env st = (none, st, []) := by
  simp only [check_for_necessary_update, hs, ite_self]

/-- Check outcome when the advisory boundary fails (timeout or any other
exception): `None`, one advisory call consumed, nothing else. -/
lemma check_of_unavail (env : Env) (st : St) {code : String}
    (hc : cacheHit st = false) (hs : st.script = some code)
    (ha : env.adv st.advisoryCalls = AdvResp.timeout ∨
          env.adv st.advisoryCalls = AdvResp.err) :
    check_for_necessary_update env st =
      (none, { st with advisoryCalls := st.advisoryCalls + 1 }, []) := by
  rcases ha with ha | ha <;>
    simp only [check_for_necessary_update, hc, hs, ha, Bool.false_eq_true,
      if_false]

/-- Check outcome on a response containing the no-update marker: `None`, the
verdict cached, the cache-write event. -/
lemma check_of_marker (env : Env) (st : St) {code text : String}
    (hc : cacheHit st = false) (hs : st.script = some code)
    (ha : env.adv st.advisoryCalls = AdvResp.ok text)
    (hm : pyIn noUpdateMarker (pyStrip text) = true) :
    check_for_necessary_update env st =
      (none,
       { st with advisoryCalls := st.advisoryCalls + 1, cache := some cacheToken },
       [Ev.cacheWrite]) := by
  simp only [check_for_necessary_update, hc, hs, ha, hm, Bool.false_eq_true,
    if_false, if_true]

/-- Check outcome on a response without the marker: the stripped text is
returned as the suggestion, no event. -/
lemma check_of_suggestion (env : Env) (st : St) {code text : String}
    (hc : cacheHit st = false) (hs : st.script = some code)
    (ha : env.adv st.advisoryCalls = AdvResp.ok text)
    (hm : pyIn noUpdateMarker (pyStrip text) = false) :
    check_for_necessary_update env st =
      (some (pyStrip text), { st with advisoryCalls := st.advisoryCalls + 1 }, []) := by
  simp only [check_for_necessary_update, hc, hs, ha, hm, Bool.false_eq_true,
    if_false]

/-- An update attempt on a missing script file is a no-op (up to the ghost
attempt counter): no advisory call, no backup, no write, no event. -/
lemma apply_update_of_missing (env : Env) {st : St} (hs : st.script = none) :
    apply_update env st = ({ st with updateCalls := st.updateCalls + 1 }, []) := by
  simp only [apply_update]
  rw [check_of_missing env { st with updateCalls := st.updateCalls + 1 } hs]
  rfl

/-- An update attempt whose advisory call fails changes nothing but the
advisory and attempt counters: no backup, no write, no cache record, no
event, and no exception escapes. -/
lemma apply_update_of_unavail (env : Env) {st : St} {code : String}
    (hc : cacheHit st = false) (hs : st.script = some code)
    (ha : env.adv st.advisoryCalls = AdvResp.timeout ∨
          env.adv st.advisoryCalls = AdvResp.err) :
    apply_update env st =
      ({ st with advisoryCalls := st.advisoryCalls + 1,
                 updateCalls := st.updateCalls + 1 }, []) := by
  simp only [apply_update]
  rw [check_of_unavail env { st with updateCalls := st.updateCalls + 1 } hc hs ha]
  rfl

/-- An update attempt whose advisory response contains the no-update marker
writes the cache record and nothing else: no backup, no script write. -/
lemma apply_update_of_marker (env : Env) {st : St} {code text : String}
    (hc : cacheHit st = false) (hs : st.script = some code)
    (ha : env.adv st.advisoryCalls = AdvResp.ok text)
    (hm : pyIn noUpdateMarker (pyStrip text) = true) :
    apply_update env st =
      ({ st with advisoryCalls := st.advisoryCalls + 1,
                 cache := some cacheToken,
                 updateCalls := st.updateCalls + 1 }, [Ev.cacheWrite]) := by
  simp only [apply_update]
  rw [check_of_marker env { st with updateCalls := st.updateCalls + 1 } hc hs ha hm]
  rfl

/-- An update attempt whose advisory response strips to the empty string is
treated as "no suggestion" by the truthiness test on line 81: nothing
happens beyond the consumed advisory call. -/
lemma apply_update_of_empty (env : Env) {st : St} {code text : String}
    (hc : cacheHit st = false) (hs : st.script = some code)
    (ha : env.adv st.advisoryCalls = AdvResp.ok text)
    (hm : pyIn noUpdateMarker (pyStrip text) = false)
    (hne : pyStrip text = "") :
    apply_update env st =
      ({ st with advisoryCalls := st.advisoryCalls + 1,
                 updateCalls := st.updateCalls + 1 }, []) := by
  simp only [apply_update]
  rw [check_of_suggestion env { st with updateCalls := st.updateCalls + 1 } hc hs ha hm]
  simp [pyTruthy, hne]

/-- An update attempt with a usable suggestion: the prior content `code` is
backed up, then the file is overwritten with the extracted code; the trace is
exactly one backup event followed by one write event. -/
lemma apply_update_of_suggestion (env : Env) {st : St} {code text : String}
    (hc : cacheHit st = false) (hs : st.script = some code)
    (ha : env.adv st.advisoryCalls = AdvResp.ok text)
    (hm : pyIn noUpdateMarker (pyStrip text) = false)
    (hne : pyStrip text ≠ "") :
    apply_update env st =
      ({ st with script := some (extract_fenced (pyStrip text)),
                 backups := putBackup st.backups (backupName env st.backupCalls) code,
                 advisoryCalls := st.advisoryCalls + 1,
                 updateCalls := st.updateCalls + 1,
                 backupCalls := st.backupCalls + 1 },
       [Ev.backup (backupName env st.backupCalls) code,
        Ev.write (extract_fenced (pyStrip text))]) := by
  simp only [apply_update]
  rw [check_of_suggestion env { st with updateCalls := st.updateCalls + 1 } hc hs ha hm]
  simp only [pyTruthy, hs, backup_code]
  rw [if_pos (by simpa using hne)]
  rfl

/-- The cache test only depends on the cache file. -/
lemma cacheHit_congr {a b : St} (hab : a.cache = b.cache) :
    cacheHit a = cacheHit b := by
  unfold cacheHit
  rw [hab]

/-- Execution does not touch the cache file. -/
lemma exec_cache (env : Env) (st : St) :
    ((execute_code_directly env st).2).cache = st.cache := by
  rw [execute_spec]

/-- A set cache survives execution. -/
lemma exec_cache_mono (env : Env) {st : St} (h : cacheHit st = true) :
    cacheHit (execute_code_directly env st).2 = true := by
  rw [cacheHit_congr (exec_cache env st)]
  exact h

/-- A set cache survives rollback. -/
lemma rollback_cache_mono {st : St} (h : cacheHit st = true) :
    cacheHit (rollback st).2 = true := by
  rw [cacheHit_congr (rollback_spec st).2.2.2.2.1]
  exact h

/-- A set cache survives a whole controller run. -/
lemma build_cache_mono (env : Env) (st : St) (h : cacheHit st = true) :
    cacheHit (build_and_self_improve env st).2 = true := by
  simp only [build_and_self_improve]
  (repeat' split) <;>
    repeat
      first
      | exact h
      | apply apply_update_cache_mono
      | apply exec_cache_mono
      | apply rollback_cache_mono

/-! ### Claim theorems -/

/-- C2 (code behavior at the claim's scenario): when the script file does not
exist, an update attempt changes nothing (up to the ghost attempt counter):
the advisory capability is never consulted, no file is created, no backup and
no cache write happen. The `open` on line 42 raises `FileNotFoundError`,
swallowed by the blanket handler on line 74 before any advisory call — the
code does not treat the missing file as empty text, contradicting the spec's
first-time-generation path and the controller's own "Generating initial
script" step. -/
theorem missing_file_update_is_noop (env : Env) (st : St)
    (hs : st.script = none) :
    apply_update env st = ({ st with updateCalls := st.updateCalls + 1 }, []) :=
  apply_update_of_missing env hs

/-- C2 witness: even with an advisory that would return a fenced code
suggestion, a run from the fresh state generates nothing. -/
theorem missing_file_update_is_noop_witness :
    apply_update envSuggest st0 = ({ st0 with updateCalls := 1 }, []) :=
  missing_file_update_is_noop envSuggest st0 rfl

/-- C5: once the no-update verdict is cached, every later update attempt is a
pure skip — state unchanged up to the ghost attempt counter, hence no
advisory call, no backup, no write, no event — and no operation of the
system (update attempt, execution, rollback, or a whole controller run) ever
clears the cached verdict. -/
theorem cache_suppression (env : Env) (st : St) (h : cacheHit st = true) :
    apply_update env st = ({ st with updateCalls := st.updateCalls + 1 }, []) ∧
    cacheHit (apply_update env st).1 = true ∧
    cacheHit (execute_code_directly env st).2 = true ∧
    cacheHit (rollback st).2 = true ∧
    cacheHit (build_and_self_improve env st).2 = true :=
  ⟨apply_update_cached env h, apply_update_cache_mono env h,
   exec_cache_mono env h, rollback_cache_mono h, build_cache_mono env st h⟩

/-- C5 witness: with the verdict cached, an update attempt on the concrete
state changes nothing and the cache survives a whole controller run. -/
theorem cache_suppression_witness :
    apply_update envSuggest stCached =
      ({ stCached with updateCalls := 1 }, []) ∧
    cacheHit (build_and_self_improve envSuggest stCached).2 = true := by
  have h := cache_suppression envSuggest stCached (by decide)
  exact ⟨h.1, h.2.2.2.2⟩

/-- C7: execution reports success exactly when the subprocess exits with
status zero; the 10-second bound and any launch exception are classified as
failure, every outcome being absorbed into the boolean result (the model is a
total function of the outcome; nothing escapes). -/
theorem executor_classification (env : Env) (st : St) :
    ((execute_code_directly env st).1 = true ↔
      env.exec st.execCalls = ExecOut.exited 0) ∧
    execTimeoutSeconds = 10 ∧
    (execute_code_directly env st).2 = { st with execCalls := st.execCalls + 1 } := by
  refine ⟨?_, rfl, by rw [execute_spec]⟩
  rw [execute_spec]
  cases h : env.exec st.execCalls with
  | exited c => simp [isFailOutcome]
  | timedOut => simp [isFailOutcome]
  | raised => simp [isFailOutcome]

/-- C7 witness: a zero exit is reported as success. -/
theorem executor_classification_witness :
    (execute_code_directly envSuggest st0).1 = true :=
  (executor_classification envSuggest st0).1.mpr rfl

/-- C8: when the advisory boundary fails — timeout or any other exception —
the update attempt returns with the script file, the backup directory and the
cache record untouched and no filesystem event emitted; the exception is
absorbed, never re-raised. -/
theorem advisory_unavailable_no_mutation (env : Env) (st : St) (code : String)
    (hc : cacheHit st = false) (hs : st.script = some code)
    (ha : env.adv st.advisoryCalls = AdvResp.timeout ∨
          env.adv st.advisoryCalls = AdvResp.err) :
    apply_update env st =
      ({ st with advisoryCalls := st.advisoryCalls + 1,
                 updateCalls := st.updateCalls + 1 }, []) :=
  apply_update_of_unavail env hc hs ha

/-- C8 witness: an advisory timeout mutates nothing. -/
theorem advisory_unavailable_no_mutation_witness :
    apply_update envTimeout stOld =
      ({ stOld with advisoryCalls := 1, updateCalls := 1 }, []) :=
  advisory_unavailable_no_mutation envTimeout stOld "old" rfl rfl (Or.inl rfl)

/-- C9: with zero backups, rollback leaves the script file's content
unchanged and its result is falsy (the Python function returns `None`,
reporting failure-to-restore in boolean context). -/
theorem restore_no_backup_noop (st : St) (h : st.backups = []) :
    (rollback st).1 = false ∧ (rollback st).2.script = st.script := by
  refine ⟨(rollback_spec st).1, ?_⟩
  simp only [rollback]
  rw [h]
  rfl

/-- C9 witness: rollback on the backup-less state leaves "old" in place. -/
theorem restore_no_backup_noop_witness :
    (rollback stOld).1 = false ∧ (rollback stOld).2.script = stOld.script :=
  restore_no_backup_noop stOld rfl

/-- C10: the no-update marker takes precedence over any code also present in
the response: any response containing it — even one that also contains a
python-fenced block — caches the verdict, creates no backup and leaves the
script file unchanged. -/
theorem marker_precedence (env : Env) (st : St) (code text : String)
    (hc : cacheHit st = false) (hs : st.script = some code)
    (ha : env.adv st.advisoryCalls = AdvResp.ok text)
    (hm : pyIn noUpdateMarker (pyStrip text) = true) :
    (apply_update env st).1.script = st.script ∧
    (apply_update env st).1.backups = st.backups ∧
    (apply_update env st).1.cache = some cacheToken ∧
    (apply_update env st).2 = [Ev.cacheWrite] := by
  rw [apply_update_of_marker env hc hs ha hm]
  exact ⟨rfl, rfl, rfl, rfl⟩

/-- C10 witness: a response carrying both the marker and a fenced block is
treated as no-update. -/
theorem marker_precedence_witness :
    pyIn "```python" "NO UPDATE NEEDED\n```python\nprint(2)\n```" = true ∧
    (apply_update envMarkerFence stOld).1.script = stOld.script ∧
    (apply_update envMarkerFence stOld).1.backups = stOld.backups ∧
    (apply_update envMarkerFence stOld).1.cache = some cacheToken ∧
    (apply_update envMarkerFence stOld).2 = [Ev.cacheWrite] :=
  ⟨by decide,
   marker_precedence envMarkerFence stOld "old"
     "NO UPDATE NEEDED\n```python\nprint(2)\n```" rfl rfl rfl (by decide)⟩

/-- C1: in every update attempt the number of backup events equals the number
of script overwrites (and is at most one), every backup event precedes every
overwrite event, and the backed-up content is exactly the script file's
content immediately prior to the overwrite; an attempt that does not
overwrite the script creates no backup. -/
theorem backup_before_overwrite (env : Env) (st : St) :
    ((apply_update env st).2.countP isBackupEv =
      (apply_update env st).2.countP isWriteEv) ∧
    (apply_update env st).2.countP isWriteEv ≤ 1 ∧
    (∀ i j nm bc wc,
      (apply_update env st).2.get? i = some (Ev.backup nm bc) →
      (apply_update env st).2.get? j = some (Ev.write wc) →
      i < j ∧ st.script = some bc) := by
  by_cases hc : cacheHit st
  · rw [apply_update_cached env hc]
    refine ⟨rfl, by simp, ?_⟩
    intro i j nm bc wc hi hj
    cases i <;> simp [List.get?] at hi
  · have hc' : cacheHit st = false := by simpa using hc
    cases hsv : st.script with
    | none =>
      rw [apply_update_of_missing env hsv]
      refine ⟨rfl, by simp, ?_⟩
      intro i j nm bc wc hi hj
      cases i <;> simp [List.get?] at hi
    | some code =>
      cases ha : env.adv st.advisoryCalls with
      | timeout =>
        rw [apply_update_of_unavail env hc' hsv (Or.inl ha)]
        refine ⟨rfl, by simp, ?_⟩
        intro i j nm bc wc hi hj
        cases i <;> simp [List.get?] at hi
      | err =>
        rw [apply_update_of_unavail env hc' hsv (Or.inr ha)]
        refine ⟨rfl, by simp, ?_⟩
        intro i j nm bc wc hi hj
        cases i <;> simp [List.get?] at hi
      | ok text =>
        by_cases hm : pyIn noUpdateMarker (pyStrip text)
        · rw [apply_update_of_marker env hc' hsv ha hm]
          refine ⟨rfl, by simp [List.countP_cons, isWriteEv], ?_⟩
          intro i j nm bc wc hi hj
          cases i with
          | zero => simp [List.get?, isBackupEv] at hi
          | succ i => cases i <;> simp [List.get?] at hi
        · have hm' : pyIn noUpdateMarker (pyStrip text) = false := by
            simpa using hm
          by_cases hne : pyStrip text = ""
          · rw [apply_update_of_empty env hc' hsv ha hm' hne]
            refine ⟨rfl, by simp, ?_⟩
            intro i j nm bc wc hi hj
            cases i <;> simp [List.get?] at hi
          · rw [apply_update_of_suggestion env hc' hsv ha hm' hne]
            refine ⟨by simp [List.countP_cons, isBackupEv, isWriteEv],
                    by simp [List.countP_cons, isBackupEv, isWriteEv], ?_⟩
            intro i j nm bc wc hi hj
            cases i with
            | zero =>
              cases j with
              | zero => simp [List.get?] at hj
              | succ j =>
                cases j with
                | zero =>
                  simp only [List.get?, Option.some.injEq, Ev.backup.injEq] at hi
                  exact ⟨by omega, by rw [hi.2]⟩
                | succ j => simp [List.get?] at hj
            | succ i => cases i <;> simp [List.get?] at hi

/-- C1 witness: a concrete suggestion-applying attempt backs up the prior
content "old" strictly before the overwrite. -/
theorem backup_before_overwrite_witness :
    (0 : Nat) < 1 ∧ stOld.script = some "old" :=
  (backup_before_overwrite envSuggest stOld).2.2 0 1
    "p_backup_20240101_000000.py" "old" "print(1)" (by decide) (by decide)

/-- C3 is false as stated: a controller run that starts with no script file
and fails both executions performs three update attempts (the generation
call, the unconditional update call, and the repair call), not exactly two as
claimed. Executions, restore and the final result are as claimed. -/
theorem bounded_retries_counterexample :
    (build_and_self_improve envFail st0).1 = false ∧
    (build_and_self_improve envFail st0).2.updateCalls = 3 ∧
    (build_and_self_improve envFail st0).2.execCalls = 2 ∧
    (build_and_self_improve envFail st0).2.restoreCalls = 1 ∧
    (3 : Nat) ≠ 2 :=
  ⟨rfl, rfl, rfl, rfl, by omega⟩

/-- C3 (amended): when the script file exists at the start of the run, a run
whose initial and repair executions both fail performs exactly two execution
attempts and exactly two update attempts, then exactly one restore attempt,
and returns false (when the script is missing at the start, one additional
generation update attempt precedes these). -/
theorem bounded_retries_amended (env : Env) (st : St) (code : String)
    (hs : st.script = some code)
    (h1 : isFailOutcome (env.exec st.execCalls) = true)
    (h2 : isFailOutcome (env.exec (st.execCalls + 1)) = true) :
    (build_and_self_improve env st).1 = false ∧
    (build_and_self_improve env st).2.execCalls = st.execCalls + 2 ∧
    (build_and_self_improve env st).2.updateCalls = st.updateCalls + 2 ∧
    (build_and_self_improve env st).2.restoreCalls = st.restoreCalls + 1 := by
  have hA : st.script.isNone = false := by rw [hs]; rfl
  simp only [build_and_self_improve, hA, Bool.false_eq_true, if_false,
    execute_spec, apply_update_execCalls, h1, Bool.not_true]
  simp only [execute_spec, apply_update_execCalls, h2, Bool.not_true,
    Bool.false_eq_true, if_false]
  refine ⟨?_, ?_, ?_, ?_⟩ <;> simp

/-- C3 amended witness: from the concrete existing-script state under the
always-failing environment. -/
theorem bounded_retries_amended_witness :
    (build_and_self_improve envFail stOld).1 = false ∧
    (build_and_self_improve envFail stOld).2.execCalls = stOld.execCalls + 2 ∧
    (build_and_self_improve envFail stOld).2.updateCalls = stOld.updateCalls + 2 ∧
    (build_and_self_improve envFail stOld).2.restoreCalls = stOld.restoreCalls + 1 :=
  bounded_retries_amended envFail stOld "old" rfl rfl rfl

/-- C4 is false as stated: the backup directory is shared by all projects and
`rollback` does not filter by project name. With one backup of project `a`
(content "A1" — that project's newest and only backup) and one of project `z`
(content "Z1"), rollback restores "Z1", not the content of project `a`'s
lexicographically greatest backup. -/
theorem restore_latest_counterexample :
    (rollback stTwoProjects).2.script = some "Z1" ∧
    ¬ ((rollback stTwoProjects).2.script = some "A1") :=
  ⟨rfl, by decide⟩

/-- C4 (amended): `rollback` copies the backup whose filename is the
lexicographically greatest among all entries of the shared backup directory.
When one entry's name strictly dominates every other entry's name — as the
project's newest backup does whenever the directory holds only that project's
backups, timestamps being fixed-width — the restored script content is
exactly that entry's content; in particular, with an older backup B1 and a
newer backup B2 of the same project, the result is B2's content, never
B1's. -/
theorem restore_latest_amended (st : St) (n2 c2 : String)
    (hmem : (n2, c2) ∈ st.backups)
    (hmax : ∀ p ∈ st.backups, p ≠ (n2, c2) → pyLt p.1 n2 = true) :
    (rollback st).2.script = some c2 := by
  have h := maxBackup_spec hmem hmax
  simp only [rollback]
  rw [h]

/-- C4 amended witness: with backups B1 = z's 2023 backup (reinterpreted as
the same project's older backup) and B2 the strictly greatest name, the
newest content is restored. -/
theorem restore_latest_amended_witness :
    (rollback stTwoProjects).2.script = some "Z1" :=
  restore_latest_amended stTwoProjects "z_backup_20230101_000000.py" "Z1"
    (by decide) (by decide)

/-- C6 is false as stated: for the advisory response text "print(1)\n" —
which contains no fence at all (no occurrence of three backticks) and no
marker — the text written to the script file is the stripped text
"print(1)", not the verbatim response text. -/
theorem response_parsing_counterexample :
    pyIn "```" "print(1)\n" = false ∧
    pyIn noUpdateMarker "print(1)\n" = false ∧
    (apply_update envPlain stOld).1.script = some "print(1)" ∧
    ¬ ((apply_update envPlain stOld).1.script = some "print(1)\n") :=
  ⟨by decide, by decide, rfl, by decide⟩

/-- C6 (amended): the response is first whitespace-stripped; if the stripped
text contains the no-update marker the outcome is no-update (cache written,
script unchanged); otherwise, if it contains the token "```python", the text
between the first "```python" and the following "```", whitespace-stripped,
becomes the suggested code written to the script; otherwise the stripped
response text itself is written (a response that strips to the empty string
is treated as no suggestion and leaves the script unchanged). Fences not
opened by "```python" trigger no extraction. -/
theorem response_parsing_amended (env : Env) (st : St) (code text : String)
    (hc : cacheHit st = false) (hs : st.script = some code)
    (ha : env.adv st.advisoryCalls = AdvResp.ok text) :
    (pyIn noUpdateMarker (pyStrip text) = true →
      (apply_update env st).1.script = st.script ∧
      (apply_update env st).1.cache = some cacheToken) ∧
    (pyIn noUpdateMarker (pyStrip text) = false → pyStrip text ≠ "" →
      (apply_update env st).1.script = some (extract_fenced (pyStrip text))) ∧
    (pyIn noUpdateMarker (pyStrip text) = false → pyStrip text = "" →
      (apply_update env st).1.script = st.script) ∧
    (pyIn "```python" (pyStrip text) = false →
      extract_fenced (pyStrip text) = pyStrip text) := by
  refine ⟨fun hm => ?_, fun hm hne => ?_, fun hm hne => ?_, fun hf => ?_⟩
  · rw [apply_update_of_marker env hc hs ha hm]
    exact ⟨rfl, rfl⟩
  · rw [apply_update_of_suggestion env hc hs ha hm hne]
  · rw [apply_update_of_empty env hc hs ha hm hne]
  · unfold extract_fenced
    rw [hf]
    rfl

/-- C6 amended witness: the fenced suggestion response yields exactly the
stripped contents of the first python fence. -/
theorem response_parsing_amended_witness :
    (apply_update envSuggest stOld).1.script =
      some (extract_fenced (pyStrip "```python\nprint(1)\n```")) :=
  (response_parsing_amended envSuggest stOld "old" "```python\nprint(1)\n```"
    rfl rfl rfl).2.1 (by decide) (by decide)

end MobiusAI
